import Mathlib

/-!
Verification of the binary framing protocol, recognition-session driver and
synthesis client found in `custom_components/volcano` (files `stt.py` and
`tts.py`).  Bytes are modelled as `List Nat` (each element a value `0..255`),
Python integers as `Nat`/`Int`, fallible Python code as `Except PyErr`.
Library calls with no reasonable pure model (gzip, json, utf-8, base64) are
modelled as explicit codec parameters, so every theorem quantifies over them.
-/

/-- Python exception kinds that the modelled code can raise. -/
inductive PyErr where
  | nameError
  | attributeError
  | typeError
  | keyError
  | indexError
  | valueError
  | overflowError
  | gzipError
  | jsonError
  | unicodeError
  | httpError
  | transportError
deriving DecidableEq

/-- Python values that flow through the modelled code: the results of
`json.loads`, the entries of response dictionaries, raw byte strings and
text strings. -/
inductive PyObj where
  | pyNull
  | pyBool (b : Bool)
  | pyInt (n : Int)
  | pyStr (s : String)
  | pyBytes (bs : List Nat)
  | pyList (xs : List PyObj)
  | pyDict (kvs : List (String × PyObj))

/-- Python subscription `obj[k]` with a string key: succeeds on a dict that
holds the key, raises KeyError on a dict without it, and TypeError on any
non-dict value. -/
def PyObj.getItem : PyObj → String → Except PyErr PyObj
  | .pyDict kvs, k =>
    match kvs.find? (fun p => p.1 == k) with
    | some p => .ok p.2
    | none => .error .keyError
  | _, _ => .error .typeError

/-- Python membership `k in obj` for a string `k`: key lookup on dicts,
substring test on strings, element equality on lists, TypeError otherwise. -/
def PyObj.hasKey : PyObj → String → Except PyErr Bool
  | .pyDict kvs, k => .ok (kvs.any (fun p => p.1 == k))
  | .pyStr s, k => .ok (k == "" || decide (2 ≤ (s.splitOn k).length))
  | .pyList xs, k =>
    .ok (xs.any (fun x => match x with | .pyStr t => t == k | _ => false))
  | _, _ => .error .typeError

/-- Python equality `obj == n` against an int literal: true only for equal
ints (and bools, which Python treats as 0/1); all other comparisons are
False without raising. -/
def PyObj.eqInt : PyObj → Int → Bool
  | .pyInt m, n => m == n
  | .pyBool b, n => (if b then (1 : Int) else 0) == n
  | _, _ => false

/-- Big-endian unsigned value of a byte string, as computed by
`int.from_bytes(bs, "big", signed=False)`. -/
def beUnsigned (bs : List Nat) : Nat :=
  bs.foldl (fun a b => a * 256 + b) 0

/-- Big-endian signed value of a byte string, as computed by
`int.from_bytes(bs, "big", signed=True)` (two's complement over the actual
length; the empty string gives 0). -/
def beSigned (bs : List Nat) : Int :=
  if (beUnsigned bs : Int) < 2 ^ (8 * bs.length - 1) then beUnsigned bs
  else (beUnsigned bs : Int) - 2 ^ (8 * bs.length)

/-- The four big-endian bytes of `n`, as produced by `n.to_bytes(4, "big")`
for `n < 2^32`. -/
def beBytes4 (n : Nat) : List Nat :=
  [n / 16777216 % 256, n / 65536 % 256, n / 256 % 256, n % 256]

/-- `n.to_bytes(4, "big")`: raises OverflowError when `n` does not fit in
four bytes. -/
def toBytesBE4 (n : Nat) : Except PyErr (List Nat) :=
  if n < 4294967296 then .ok (beBytes4 n) else .error .overflowError

-- Protocol constants, stt.py lines 44-78.
def PROTOCOL_VERSION : Nat := 1
def DEFAULT_HEADER_SIZE : Nat := 1
def CLIENT_FULL_REQUEST : Nat := 1
def CLIENT_AUDIO_ONLY_REQUEST : Nat := 2
def SERVER_FULL_RESPONSE : Nat := 9
def SERVER_ACK : Nat := 11
def SERVER_ERROR_RESPONSE : Nat := 15
def NO_SEQUENCE : Nat := 0
def POS_SEQUENCE : Nat := 1
def NEG_SEQUENCE : Nat := 2
def NEG_SEQUENCE_1 : Nat := 3
def NO_SERIALIZATION : Nat := 0
def JSON : Nat := 1
def THRIFT : Nat := 3
def CUSTOM_TYPE : Nat := 15
def NO_COMPRESSION : Nat := 0
def GZIP : Nat := 1
def CUSTOM_COMPRESSION : Nat := 15

/-- The integer constants bound at module scope in stt.py (lines 44-78).
This is the global namespace that line 140 of `_generate_header` consults:
note that it binds `JSON` and `GZIP` but binds no name
`JSON_SERIALIZATION` and no name `GZIP_COMPRESSION`. -/
def sttGlobalInt : String → Option Nat := fun n =>
  if n = "PROTOCOL_VERSION" then some 1
  else if n = "DEFAULT_HEADER_SIZE" then some 1
  else if n = "PROTOCOL_VERSION_BITS" then some 4
  else if n = "HEADER_BITS" then some 4
  else if n = "MESSAGE_TYPE_BITS" then some 4
  else if n = "MESSAGE_TYPE_SPECIFIC_FLAGS_BITS" then some 4
  else if n = "MESSAGE_SERIALIZATION_BITS" then some 4
  else if n = "MESSAGE_COMPRESSION_BITS" then some 4
  else if n = "RESERVED_BITS" then some 8
  else if n = "CLIENT_FULL_REQUEST" then some 1
  else if n = "CLIENT_AUDIO_ONLY_REQUEST" then some 2
  else if n = "SERVER_FULL_RESPONSE" then some 9
  else if n = "SERVER_ACK" then some 11
  else if n = "SERVER_ERROR_RESPONSE" then some 15
  else if n = "NO_SEQUENCE" then some 0
  else if n = "POS_SEQUENCE" then some 1
  else if n = "NEG_SEQUENCE" then some 2
  else if n = "NEG_SEQUENCE_1" then some 3
  else if n = "NO_SERIALIZATION" then some 0
  else if n = "JSON" then some 1
  else if n = "THRIFT" then some 3
  else if n = "CUSTOM_TYPE" then some 15
  else if n = "NO_COMPRESSION" then some 0
  else if n = "GZIP" then some 1
  else if n = "CUSTOM_COMPRESSION" then some 15
  else none

/-- `_generate_header` (stt.py lines 130-142), exactly as written.  It
appends `(PROTOCOL_VERSION << 4) | header_size` (with the local
`header_size = 1`), then `(message_type << 4) | message_type_specific_flags`
(`bytearray.append` raises ValueError when that exceeds 255), and then line
140 reads the two global names `JSON_SERIALIZATION` and `GZIP_COMPRESSION`,
neither of which is bound in the module (see `sttGlobalInt`), so the call
raises NameError at that point. -/
def generateHeader (message_type flags : Nat) : Except PyErr (List Nat) :=
  let b0 := (PROTOCOL_VERSION <<< 4) ||| 1
  let b1 := (message_type <<< 4) ||| flags
  if 256 ≤ b1 then .error .valueError
  else
    match sttGlobalInt "JSON_SERIALIZATION", sttGlobalInt "GZIP_COMPRESSION" with
    | some js, some gz =>
      let b2 := (js <<< 4) ||| gz
      if 256 ≤ b2 then .error .valueError else .ok [b0, b1, b2, 0]
    | _, _ => .error .nameError

/-- `_generate_header` with line 140 read as it is evidently intended:
`(JSON << 4) | GZIP`, using the two serialization/compression constants the
module actually binds (the same pair `_parse_response` tests against). -/
def generateHeaderIntended (message_type flags : Nat) : List Nat :=
  [(PROTOCOL_VERSION <<< 4) ||| 1,
   (message_type <<< 4) ||| flags,
   (JSON <<< 4) ||| GZIP,
   0]

/-- A full request frame as assembled around the intended header (stt.py
lines 226-228): header, 4-byte big-endian payload length, payload. -/
def fullRequestIntended (message_type flags : Nat) (payload : List Nat) :
    Except PyErr (List Nat) := do
  let sz ← toBytesBE4 payload.length
  .ok (generateHeaderIntended message_type flags ++ sz ++ payload)

/-- The pure library calls of stt.py that have no reasonable shallow pure
model are abstracted as codec functions: `gzip.compress` (total),
`gzip.decompress`, `str(b, "utf-8")` and `json.loads` (each fallible). -/
structure Codecs where
  gzipCompress : List Nat → List Nat
  gunzip : List Nat → Except PyErr (List Nat)
  utf8Decode : List Nat → Except PyErr String
  jsonLoads : String → Except PyErr PyObj

/-- stt.py lines 206-211: reverse gzip when the compression nibble says
Gzip, then dispatch on the serialization nibble: JSON parse for JSON,
UTF-8 text for any other non-None method, raw bytes for None. -/
def decodeBody (c : Codecs) (ser comp : Nat) (body : List Nat) :
    Except PyErr PyObj := do
  let b ← if comp = GZIP then c.gunzip body else pure body
  if ser = JSON then
    let s ← c.utf8Decode b
    c.jsonLoads s
  else if ser = NO_SERIALIZATION then
    pure (PyObj.pyBytes b)
  else do
    let s ← c.utf8Decode b
    pure (PyObj.pyStr s)

/-- The `result` dictionary built by `_parse_response`: an optional `seq`
entry (Ack frames), an optional `code` entry (Error frames), and the
`payload_msg` / `payload_size` pair that is stored only when a payload body
was extracted. -/
structure ParseResult where
  seq : Option Int
  code : Option Nat
  payloadMsg : Option PyObj
  payloadSize : Option Int

/-- stt.py lines 204-214: when no payload body was extracted the partial
result is returned as is; otherwise the body is decompressed/deserialized
and stored together with the payload size. -/
def attachBody (c : Codecs) (ser comp : Nat) (base : ParseResult)
    (psize : Int) : Option (List Nat) → Except PyErr ParseResult
  | none => .ok base
  | some body => do
    let v ← decodeBody c ser comp body
    .ok { base with payloadMsg := some v, payloadSize := some psize }

/-- `_parse_response` (stt.py lines 176-214).  Reads the four header bytes
(IndexError on shorter input), slices the payload at `header_size * 4`,
and dispatches on the message-type nibble: ServerFullResponse (signed size
then body), ServerAck (signed seq, then size and body only when at least 8
payload bytes remain), ServerErrorResponse (unsigned code, size, body); any
other message type falls through with an empty result and no body. -/
def parseResponse (c : Codecs) (res : List Nat) : Except PyErr ParseResult :=
  match res with
  | b0 :: b1 :: b2 :: _b3 :: _rest =>
    let hs := b0 &&& 15
    let mt := b1 >>> 4
    let ser := b2 >>> 4
    let comp := b2 &&& 15
    let payload := res.drop (hs * 4)
    if mt = SERVER_FULL_RESPONSE then
      attachBody c ser comp ⟨none, none, none, none⟩
        (beSigned (payload.take 4)) (some (payload.drop 4))
    else if mt = SERVER_ACK then
      let sq := beSigned (payload.take 4)
      if 8 ≤ payload.length then
        attachBody c ser comp ⟨some sq, none, none, none⟩
          ((beUnsigned ((payload.drop 4).take 4)) : Int) (some (payload.drop 8))
      else
        attachBody c ser comp ⟨some sq, none, none, none⟩ 0 none
    else if mt = SERVER_ERROR_RESPONSE then
      attachBody c ser comp ⟨none, some (beUnsigned (payload.take 4)), none, none⟩
        ((beUnsigned ((payload.drop 4).take 4)) : Int) (some (payload.drop 8))
    else
      attachBody c ser comp ⟨none, none, none, none⟩ 0 none
  | _ => .error .indexError

/-- Lines 262 and 281 of stt.py call the bare name `parse_response`; the
module binds no function of that name (the method is `_parse_response` on
`self`), so evaluating the call raises NameError. -/
def parseResponseGlobal : List Nat → Except PyErr ParseResult :=
  fun _ => .error .nameError

/-- Lines 263 and 282 of stt.py read `self.success_code`; the instance
attribute set in `__init__` is `_success_code`, so the attribute access
raises AttributeError. -/
def successCodeAttr : Except PyErr Int := .error .attributeError

/-- Outcome state of a `SpeechResult` (SpeechResultState.SUCCESS / ERROR). -/
inductive RState where
  | success
  | error
deriving DecidableEq

/-- `SpeechResult(text, state)` as returned by the session. -/
structure SpeechResult where
  text : Option PyObj
  state : RState

/-- `SpeechResult(None, SpeechResultState.ERROR)`. -/
def errResult : SpeechResult := ⟨none, .error⟩

/-- `ws.recv()` against the modelled stream of server frames: pops the next
frame, or fails like a closed connection when none remain. -/
def recvO : List (List Nat) → Except PyErr (List Nat × List (List Nat))
  | [] => .error .transportError
  | r :: rs => .ok (r, rs)

/-- The loop-body status check (stt.py line 263, with the intended names
`self._parse_response` / `self._success_code`):
`'payload_msg' in result and result['payload_msg']['code'] != 1000`.
Returns `true` when the session must bail out with an error result; a
missing `code` key or a non-dict payload raises, exactly as subscription
does in Python. -/
def checkLoopCode (result : ParseResult) : Except PyErr Bool :=
  match result.payloadMsg with
  | none => .ok false
  | some pm =>
    match pm.getItem "code" with
    | .error e => .error e
    | .ok v => .ok (!(v.eqInt 1000))

/-- Parse a loop response and apply the line-263 status check to it. -/
def stepCheck (c : Codecs) (r : List Nat) : Except PyErr Bool :=
  match parseResponse c r with
  | .error e => .error e
  | .ok result => checkLoopCode result

/-- The handshake check (stt.py lines 238-244, intended names): parse the
response; a result without `payload_msg`, or one whose payload `code`
differs from 1000, makes the session return an error result (`ok false`
here); subscription raises propagate. -/
def handshakeCheck (c : Codecs) (r : List Nat) : Except PyErr Bool :=
  match parseResponse c r with
  | .error e => .error e
  | .ok result =>
    match result.payloadMsg with
    | none => .ok false
    | some pm =>
      match pm.getItem "code" with
      | .error e => .error e
      | .ok v => .ok (v.eqInt 1000)

/-- stt.py lines 285-288: the final result must contain a payload with a
`text` entry; `ok none` means one of the two membership tests failed (the
session then returns an error result), and a raise from the membership
test on a non-dict payload propagates. -/
def finalText (result : ParseResult) : Except PyErr (Option PyObj) :=
  match result.payloadMsg with
  | none => .ok none
  | some pm =>
    match pm.hasKey "text" with
    | .error e => .error e
    | .ok true =>
      match pm.getItem "text" with
      | .error e => .error e
      | .ok t => .ok (some t)
    | .ok false => .ok none

/-- stt.py lines 280-288 (intended names): parse the final response, apply
the line-282 status check, then settle the result from the `text` entry. -/
def finalResult (c : Codecs) (r : List Nat) : Except PyErr SpeechResult :=
  match parseResponse c r with
  | .error e => .error e
  | .ok result =>
    match checkLoopCode result with
    | .error e => .error e
    | .ok true => .ok errResult
    | .ok false =>
      match finalText result with
      | .error e => .error e
      | .ok none => .ok errResult
      | .ok (some t) => .ok ⟨some t, .success⟩

/-- stt.py lines 268-288 with the intended names: after the chunk loop the
buffered chunk is flushed as the terminal NEG_SEQUENCE audio frame (with
`gzip.compress(None)` raising TypeError when no chunk was ever buffered),
one response is read and the final result settled from it.  The second
component accumulates every frame passed to `ws.send`. -/
def afterLoop (c : Codecs) (last : Option (List Nat))
    (oracle sends : List (List Nat)) :
    Except PyErr SpeechResult × List (List Nat) :=
  match last with
  | none => (.error .typeError, sends)
  | some lc =>
    let p := c.gzipCompress lc
    match toBytesBE4 p.length with
    | .error e => (.error e, sends)
    | .ok sz =>
      let frame := generateHeaderIntended CLIENT_AUDIO_ONLY_REQUEST NEG_SEQUENCE ++ sz ++ p
      let sends1 := sends ++ [frame]
      match recvO oracle with
      | .error e => (.error e, sends1)
      | .ok (r, _) => (finalResult c r, sends1)

/-- stt.py lines 246-266 with the intended names (`JSON`/`GZIP` on line
140, `self._parse_response` on line 262, `self._success_code` on line 263):
the one-chunk-lookahead loop.  While a previous chunk is buffered, each new
chunk flushes it as a non-terminal NO_SEQUENCE audio frame, awaits one
response, and bails out with an error result on a non-success code; the
exhausted stream falls through to `afterLoop`. -/
def fixedLoop (c : Codecs) :
    List (List Nat) → Option (List Nat) → List (List Nat) → List (List Nat) →
    Except PyErr SpeechResult × List (List Nat)
  | chunk :: rest, none, oracle, sends => fixedLoop c rest (some chunk) oracle sends
  | chunk :: rest, some lc, oracle, sends =>
    let p := c.gzipCompress lc
    match toBytesBE4 p.length with
    | .error e => (.error e, sends)
    | .ok sz =>
      let frame := generateHeaderIntended CLIENT_AUDIO_ONLY_REQUEST NO_SEQUENCE ++ sz ++ p
      let sends1 := sends ++ [frame]
      match recvO oracle with
      | .error e => (.error e, sends1)
      | .ok (r, oracle1) =>
        match stepCheck c r with
        | .error e => (.error e, sends1)
        | .ok true => (.ok errResult, sends1)
        | .ok false => fixedLoop c rest (some chunk) oracle1 sends1
  | [], last, oracle, sends => afterLoop c last oracle sends

/-- `async_process_audio_stream` (stt.py lines 216-294) with the three
undefined-name slips repaired to their evident referents.  `reqBytes`
stands for `json.dumps(self._construct_request(metadata)).encode()`, whose
content no claim depends on.  The handshake frames the compressed request
as ClientFullRequest/NO_SEQUENCE, awaits one response, requires a payload
whose `code` equals 1000, and only then enters the chunk loop. -/
def sessionFixedE (c : Codecs) (reqBytes : List Nat)
    (chunks oracle : List (List Nat)) :
    Except PyErr SpeechResult × List (List Nat) :=
  let payload := c.gzipCompress reqBytes
  match toBytesBE4 payload.length with
  | .error e => (.error e, [])
  | .ok sz =>
    let fullRequest := generateHeaderIntended CLIENT_FULL_REQUEST NO_SEQUENCE ++ sz ++ payload
    let sends := [fullRequest]
    match recvO oracle with
    | .error e => (.error e, sends)
    | .ok (r, oracle1) =>
      match handshakeCheck c r with
      | .error e => (.error e, sends)
      | .ok true => fixedLoop c chunks none oracle1 sends
      | .ok false => (.ok errResult, sends)

/-- The name-repaired session with the surrounding `try/except Exception`
of stt.py line 291 applied: any raise is converted to
`SpeechResult(None, ERROR)`; the frames already sent stay sent. -/
def sessionFixed (c : Codecs) (reqBytes : List Nat)
    (chunks oracle : List (List Nat)) : SpeechResult × List (List Nat) :=
  match sessionFixedE c reqBytes chunks oracle with
  | (.ok r, s) => (r, s)
  | (.error _, s) => (errResult, s)

/-- The loop-body status check exactly as written on stt.py line 263:
`'payload_msg' in result and result['payload_msg']['code'] != self.success_code`,
where the attribute read `self.success_code` raises AttributeError
(see `successCodeAttr`). -/
def faithfulLoopCheck (result : ParseResult) : Except PyErr Bool :=
  match result.payloadMsg with
  | none => .ok false
  | some pm => do
    let v ← pm.getItem "code"
    let sc ← successCodeAttr
    .ok (!(v.eqInt sc))

/-- stt.py lines 268-288 exactly as written: the terminal flush calls
`self._generate_header`, which raises NameError (line 140), and the
response would then be parsed with the unbound global `parse_response`. -/
def faithfulAfter (c : Codecs) (last : Option (List Nat))
    (oracle sends : List (List Nat)) :
    Except PyErr SpeechResult × List (List Nat) :=
  match last with
  | none => (.error .typeError, sends)
  | some lc =>
    let p := c.gzipCompress lc
    match generateHeader CLIENT_AUDIO_ONLY_REQUEST NEG_SEQUENCE with
    | .error e => (.error e, sends)
    | .ok hdr =>
      match toBytesBE4 p.length with
      | .error e => (.error e, sends)
      | .ok sz =>
        let sends1 := sends ++ [hdr ++ sz ++ p]
        match recvO oracle with
        | .error e => (.error e, sends1)
        | .ok (r, _) =>
          match parseResponseGlobal r with
          | .error e => (.error e, sends1)
          | .ok result =>
            match faithfulLoopCheck result with
            | .error e => (.error e, sends1)
            | .ok true => (.ok errResult, sends1)
            | .ok false =>
              match finalText result with
              | .error e => (.error e, sends1)
              | .ok none => (.ok errResult, sends1)
              | .ok (some t) => (.ok ⟨some t, .success⟩, sends1)

/-- stt.py lines 246-266 exactly as written: the non-terminal flush calls
`self._generate_header(message_type=CLIENT_AUDIO_ONLY_REQUEST)`, which
raises NameError on line 140 before anything is sent. -/
def faithfulLoop (c : Codecs) :
    List (List Nat) → Option (List Nat) → List (List Nat) → List (List Nat) →
    Except PyErr SpeechResult × List (List Nat)
  | chunk :: rest, none, oracle, sends => faithfulLoop c rest (some chunk) oracle sends
  | chunk :: rest, some lc, oracle, sends =>
    let p := c.gzipCompress lc
    match generateHeader CLIENT_AUDIO_ONLY_REQUEST NO_SEQUENCE with
    | .error e => (.error e, sends)
    | .ok hdr =>
      match toBytesBE4 p.length with
      | .error e => (.error e, sends)
      | .ok sz =>
        let sends1 := sends ++ [hdr ++ sz ++ p]
        match recvO oracle with
        | .error e => (.error e, sends1)
        | .ok (r, oracle1) =>
          match parseResponseGlobal r with
          | .error e => (.error e, sends1)
          | .ok result =>
            match faithfulLoopCheck result with
            | .error e => (.error e, sends1)
            | .ok true => (.ok errResult, sends1)
            | .ok false => faithfulLoop c rest (some chunk) oracle1 sends1
  | [], last, oracle, sends => faithfulAfter c last oracle sends

/-- `async_process_audio_stream` (stt.py lines 216-294) exactly as
written: the initial request is compressed, and line 226 then calls
`self._generate_header()`, which raises NameError on line 140 before the
connection is even used, so no frame is ever sent. -/
def sessionFaithfulE (c : Codecs) (reqBytes : List Nat)
    (chunks oracle : List (List Nat)) :
    Except PyErr SpeechResult × List (List Nat) :=
  let payload := c.gzipCompress reqBytes
  match generateHeader CLIENT_FULL_REQUEST NO_SEQUENCE with
  | .error e => (.error e, [])
  | .ok hdr =>
    match toBytesBE4 payload.length with
    | .error e => (.error e, [])
    | .ok sz =>
      let sends := [hdr ++ sz ++ payload]
      match recvO oracle with
      | .error e => (.error e, sends)
      | .ok (r, oracle1) =>
        match parseResponse c r with
        | .error e => (.error e, sends)
        | .ok result =>
          match result.payloadMsg with
          | none => (.ok errResult, sends)
          | some pm =>
            match pm.getItem "code" with
            | .error e => (.error e, sends)
            | .ok v =>
              if v.eqInt 1000 then faithfulLoop c chunks none oracle1 sends
              else (.ok errResult, sends)

/-- The session exactly as written, with the `try/except` of line 291
applied: every raise becomes `SpeechResult(None, ERROR)`. -/
def sessionFaithful (c : Codecs) (reqBytes : List Nat)
    (chunks oracle : List (List Nat)) : SpeechResult × List (List Nat) :=
  match sessionFaithfulE c reqBytes chunks oracle with
  | (.ok r, s) => (r, s)
  | (.error _, s) => (errResult, s)

/-- The HTTP response object consumed by `async_get_tts_audio`
(tts.py lines 109-115): `raise_for_status` (raises on a non-success HTTP
status) and `.json()` (raises on a non-JSON body). -/
structure HttpResponse where
  raiseForStatus : Except PyErr Unit
  jsonBody : Except PyErr PyObj

/-- `async_get_tts_audio` (tts.py lines 78-126) from the point the request
has been built: `requests.post` is modelled by the `resp` argument (an
error stands for a transport failure) and `base64.b64decode` by `b64`.
On success with a `data` field the decoded bytes are returned with the
fixed format string `"mp3"`; a missing `data` field returns `(None, None)`
inside the `try`, and every raise is caught by the `except Exception`
(lines 124-126) and also converted to `(None, None)`. -/
def asyncGetTtsAudio (resp : Except PyErr HttpResponse)
    (b64 : PyObj → Except PyErr (List Nat)) :
    Option String × Option (List Nat) :=
  let r : Except PyErr (Option String × Option (List Nat)) := do
    let rsp ← resp
    rsp.raiseForStatus
    let data ← rsp.jsonBody
    let m ← data.hasKey "data"
    if m then do
      let d ← data.getItem "data"
      let audio ← b64 d
      pure (some "mp3", some audio)
    else
      pure (none, none)
  match r with
  | .ok v => v
  | .error _ => (none, none)

/-- A concrete codec instance for evaluating the model on closed inputs:
compression is the identity (so compressed bytes are the chunk bytes),
UTF-8 decoding maps byte values to characters, and the JSON parser returns
a status dictionary whose code is 1000 unless the text is "bad". -/
def testCodecs : Codecs where
  gzipCompress := fun bs => bs
  gunzip := fun bs => .ok bs
  utf8Decode := fun bs => .ok (String.mk (bs.map Char.ofNat))
  jsonLoads := fun s =>
    if s = "bad" then .ok (.pyDict [("code", .pyInt 1)])
    else .ok (.pyDict [("code", .pyInt 1000), ("text", .pyStr s)])

/-- A ServerFullResponse frame with an empty body: under `testCodecs` it
parses to a payload dictionary with code 1000 and a `text` entry. -/
def okResp : List Nat := [17, 144, 17, 0, 0, 0, 0, 0]

/-- A ServerFullResponse frame whose body reads "bad": under `testCodecs`
it parses to a payload dictionary with code 1, a non-success status. -/
def badResp : List Nat := [17, 144, 17, 0, 0, 0, 0, 3, 98, 97, 100]

/-- A response satisfies the success check the session applies: it parses,
carries a payload message, and that payload's `code` entry equals 1000. -/
def goodResponse (c : Codecs) (r : List Nat) : Bool :=
  match parseResponse c r with
  | .error _ => false
  | .ok res =>
    match res.payloadMsg with
    | none => false
    | some pm =>
      match pm.getItem "code" with
      | .ok v => v.eqInt 1000
      | .error _ => false

/-- A response that parses and carries a payload message whose `code`
entry is present but different from 1000. -/
def badResponse (c : Codecs) (r : List Nat) : Bool :=
  match parseResponse c r with
  | .error _ => false
  | .ok res =>
    match res.payloadMsg with
    | none => false
    | some pm =>
      match pm.getItem "code" with
      | .ok v => !(v.eqInt 1000)
      | .error _ => false

/-- The initial full-request frame the name-repaired session sends for the
serialized request bytes `req` (assuming the compressed length fits four
bytes). -/
def fullRequestFrame (c : Codecs) (req : List Nat) : List Nat :=
  generateHeaderIntended CLIENT_FULL_REQUEST NO_SEQUENCE ++
    beBytes4 (c.gzipCompress req).length ++ c.gzipCompress req

/-- The audio frame the name-repaired session sends for chunk `ch` with
message-type flags `fl` (assuming the compressed length fits four
bytes). -/
def audioFrame (c : Codecs) (fl : Nat) (ch : List Nat) : List Nat :=
  generateHeaderIntended CLIENT_AUDIO_ONLY_REQUEST fl ++
    beBytes4 (c.gzipCompress ch).length ++ c.gzipCompress ch

deriving instance DecidableEq for Except

/-- Bind on a successful `Except` value reduces to the continuation. -/
theorem exbind_ok {e a b : Type} (x : a) (f : a → Except e b) :
    (do let y ← Except.ok x; f y) = f x := rfl

/-- The four big-endian bytes of `n < 2^32` decode back to `n`. -/
theorem beUnsigned_beBytes4 (n : Nat) (h : n < 4294967296) :
    beUnsigned (beBytes4 n) = n := by
  simp only [beUnsigned, beBytes4, List.foldl]
  omega

/-- For values that fit, `to_bytes(4, "big")` succeeds with the four
big-endian bytes. -/
theorem toBytesBE4_ok (n : Nat) (h : n < 4294967296) :
    toBytesBE4 n = .ok (beBytes4 n) := by
  simp [toBytesBE4, h]

/-- Unfolding of a successful status response: it parses, carries a
payload message, and the payload's `code` entry equals 1000. -/
theorem goodResponse_spec (c : Codecs) (r : List Nat)
    (h : goodResponse c r = true) :
    ∃ res pm v, parseResponse c r = .ok res ∧ res.payloadMsg = some pm ∧
      pm.getItem "code" = .ok v ∧ v.eqInt 1000 = true := by
  unfold goodResponse at h
  split at h
  · simp at h
  case _ res heq =>
    split at h
    · simp at h
    case _ pm hpm =>
      split at h
      case _ v hv => exact ⟨res, pm, v, heq, hpm, hv, h⟩
      case _ => simp at h

/-- A successful status response passes the loop-body check. -/
theorem stepCheck_of_good (c : Codecs) (r : List Nat)
    (h : goodResponse c r = true) : stepCheck c r = .ok false := by
  obtain ⟨res, pm, v, h1, h2, h3, h4⟩ := goodResponse_spec c r h
  simp [stepCheck, h1, checkLoopCode, h2, h3, h4]

/-- A successful status response passes the handshake check. -/
theorem handshake_of_good (c : Codecs) (r : List Nat)
    (h : goodResponse c r = true) : handshakeCheck c r = .ok true := by
  obtain ⟨res, pm, v, h1, h2, h3, h4⟩ := goodResponse_spec c r h
  simp [handshakeCheck, h1, h2, h3, h4]

/-- Unfolding of a non-success status response: it parses, carries a
payload message, and the payload's `code` entry differs from 1000. -/
theorem badResponse_spec (c : Codecs) (r : List Nat)
    (h : badResponse c r = true) :
    ∃ res pm v, parseResponse c r = .ok res ∧ res.payloadMsg = some pm ∧
      pm.getItem "code" = .ok v ∧ v.eqInt 1000 = false := by
  unfold badResponse at h
  split at h
  · simp at h
  case _ res heq =>
    split at h
    · simp at h
    case _ pm hpm =>
      split at h
      case _ v hv => exact ⟨res, pm, v, heq, hpm, hv, by simpa using h⟩
      case _ => simp at h

/-- A non-success status response trips the loop-body check. -/
theorem stepCheck_of_bad (c : Codecs) (r : List Nat)
    (h : badResponse c r = true) : stepCheck c r = .ok true := by
  obtain ⟨res, pm, v, h1, h2, h3, h4⟩ := badResponse_spec c r h
  simp [stepCheck, h1, checkLoopCode, h2, h3, h4]

/-- The terminal flush always sends exactly the NEG_SEQUENCE audio frame
for the buffered chunk, whatever the final response holds. -/
theorem afterLoop_sends (c : Codecs) (lc : List Nat)
    (oracle sends : List (List Nat))
    (h : (c.gzipCompress lc).length < 4294967296) :
    (afterLoop c (some lc) oracle sends).2 =
      sends ++ [audioFrame c NEG_SEQUENCE lc] := by
  unfold afterLoop
  dsimp only
  rw [toBytesBE4_ok _ h]
  cases oracle <;> simp [recvO, audioFrame]

/-- With a buffered chunk, remaining chunks `init ++ [lastc]` and only
successful responses, the loop sends NO_SEQUENCE frames for the buffer and
every chunk of `init`, then the NEG_SEQUENCE frame for `lastc`. -/
theorem fixedLoop_sends_good (c : Codecs) (init : List (List Nat)) :
    ∀ (lastc l : List Nat) (oracle sends : List (List Nat)),
    (∀ r ∈ oracle, goodResponse c r = true) →
    init.length + 1 ≤ oracle.length →
    (∀ ch ∈ l :: (init ++ [lastc]), (c.gzipCompress ch).length < 4294967296) →
    (fixedLoop c (init ++ [lastc]) (some l) oracle sends).2 =
      sends ++ (l :: init).map (audioFrame c NO_SEQUENCE) ++
        [audioFrame c NEG_SEQUENCE lastc] := by
  induction init with
  | nil =>
    intro lastc l oracle sends hg hlen hb
    match oracle with
    | r :: o1 =>
      simp only [List.nil_append, fixedLoop]
      rw [toBytesBE4_ok _ (hb l (by simp))]
      simp only [recvO]
      rw [stepCheck_of_good c r (hg r (by simp))]
      simp only [fixedLoop]
      rw [afterLoop_sends c lastc o1 _ (hb lastc (by simp))]
      simp [audioFrame]
  | cons i1 init ih =>
    intro lastc l oracle sends hg hlen hb
    match oracle with
    | r :: o1 =>
      simp only [List.cons_append, fixedLoop]
      rw [toBytesBE4_ok _ (hb l (by simp))]
      simp only [recvO]
      rw [stepCheck_of_good c r (hg r (by simp))]
      dsimp only
      simp only [List.append_eq]
      rw [ih lastc i1 o1 _ (fun x hx => hg x (by simp [hx]))
        (by simpa using hlen) (fun x hx => hb x (by simpa using Or.inr hx))]
      simp [audioFrame]

/-- With a buffered chunk and a response stream whose first non-success
status arrives after `goods.length` successes, the loop sends exactly
`goods.length + 1` NO_SEQUENCE frames and stops with an error result. -/
theorem fixedLoop_sends_bad (c : Codecs) (goods : List (List Nat)) :
    ∀ (bad : List Nat) (rest cs : List (List Nat)) (l : List Nat)
      (sends : List (List Nat)),
    (∀ r ∈ goods, goodResponse c r = true) →
    badResponse c bad = true →
    goods.length + 1 ≤ cs.length →
    (∀ ch ∈ l :: cs, (c.gzipCompress ch).length < 4294967296) →
    fixedLoop c cs (some l) (goods ++ bad :: rest) sends =
      (.ok errResult,
        sends ++ (l :: cs.take goods.length).map (audioFrame c NO_SEQUENCE)) := by
  induction goods with
  | nil =>
    intro bad rest cs l sends hg hbad hlen hb
    match cs with
    | c1 :: cs1 =>
      simp only [List.nil_append, fixedLoop]
      rw [toBytesBE4_ok _ (hb l (by simp))]
      simp only [recvO]
      rw [stepCheck_of_bad c bad hbad]
      simp [audioFrame]
  | cons g goods ih =>
    intro bad rest cs l sends hg hbad hlen hb
    match cs with
    | c1 :: cs1 =>
      simp only [List.cons_append, fixedLoop]
      rw [toBytesBE4_ok _ (hb l (by simp))]
      simp only [recvO]
      rw [stepCheck_of_good c g (hg g (by simp))]
      dsimp only
      rw [ih bad rest cs1 c1 _ (fun x hx => hg x (by simp [hx])) hbad
        (by simpa using hlen) (fun x hx => hb x (by simpa using Or.inr hx))]
      simp [audioFrame, List.take_cons]

/-- The catching wrapper leaves the list of sent frames unchanged. -/
theorem sessionFixed_snd (c : Codecs) (q : List Nat)
    (ch o : List (List Nat)) :
    (sessionFixed c q ch o).2 = (sessionFixedE c q ch o).2 := by
  unfold sessionFixed
  rcases h : sessionFixedE c q ch o with ⟨r, s⟩
  rcases r <;> rfl

/-- The final-response settlement yields the error result, a success
result with a text, or a raise; nothing else. -/
theorem finalResult_cases (c : Codecs) (r : List Nat) :
    finalResult c r = .ok errResult ∨
    (∃ t, finalResult c r = .ok ⟨some t, RState.success⟩) ∨
    ∃ e, finalResult c r = .error e := by
  unfold finalResult
  split
  · exact Or.inr (Or.inr ⟨_, rfl⟩)
  · split
    · exact Or.inr (Or.inr ⟨_, rfl⟩)
    · exact Or.inl rfl
    · split
      · exact Or.inr (Or.inr ⟨_, rfl⟩)
      · exact Or.inl rfl
      · exact Or.inr (Or.inl ⟨_, rfl⟩)

/-- The terminal flush yields the error result, a success result with a
text, or a raise; nothing else. -/
theorem afterLoop_cases (c : Codecs) (last : Option (List Nat))
    (oracle sends : List (List Nat)) :
    (afterLoop c last oracle sends).1 = .ok errResult ∨
    (∃ t, (afterLoop c last oracle sends).1 = .ok ⟨some t, RState.success⟩) ∨
    ∃ e, (afterLoop c last oracle sends).1 = .error e := by
  unfold afterLoop
  rcases last with _ | lc
  · exact Or.inr (Or.inr ⟨_, rfl⟩)
  · dsimp only
    rcases h1 : toBytesBE4 (c.gzipCompress lc).length with e | sz <;>
      simp only [h1]
    · exact Or.inr (Or.inr ⟨_, rfl⟩)
    · rcases h2 : recvO oracle with e | ⟨r, o1⟩ <;> simp only [h2]
      · exact Or.inr (Or.inr ⟨_, rfl⟩)
      · simpa using finalResult_cases c r

/-- The chunk loop yields the error result, a success result with a text,
or a raise; nothing else. -/
theorem fixedLoop_cases (c : Codecs) (chunks : List (List Nat)) :
    ∀ (last : Option (List Nat)) (oracle sends : List (List Nat)),
    (fixedLoop c chunks last oracle sends).1 = .ok errResult ∨
    (∃ t, (fixedLoop c chunks last oracle sends).1 =
      .ok ⟨some t, RState.success⟩) ∨
    ∃ e, (fixedLoop c chunks last oracle sends).1 = .error e := by
  induction chunks with
  | nil =>
    intro last oracle sends
    simpa only [fixedLoop] using afterLoop_cases c last oracle sends
  | cons ch rest ih =>
    intro last oracle sends
    cases last with
    | none => simpa only [fixedLoop] using ih (some ch) oracle sends
    | some lc =>
      simp only [fixedLoop]
      split
      · exact Or.inr (Or.inr ⟨_, rfl⟩)
      · split
        · exact Or.inr (Or.inr ⟨_, rfl⟩)
        · split
          · exact Or.inr (Or.inr ⟨_, rfl⟩)
          · exact Or.inl rfl
          · exact ih _ _ _

/-- The name-repaired session yields the error result, a success result
with a text, or a raise; nothing else. -/
theorem sessionFixedE_cases (c : Codecs) (q : List Nat)
    (ch o : List (List Nat)) :
    (sessionFixedE c q ch o).1 = .ok errResult ∨
    (∃ t, (sessionFixedE c q ch o).1 = .ok ⟨some t, RState.success⟩) ∨
    ∃ e, (sessionFixedE c q ch o).1 = .error e := by
  unfold sessionFixedE
  dsimp only
  rcases h1 : toBytesBE4 (c.gzipCompress q).length with e | sz <;>
    simp only [h1]
  · exact Or.inr (Or.inr ⟨_, rfl⟩)
  · rcases h2 : recvO o with e | ⟨r, o1⟩ <;> simp only [h2]
    · exact Or.inr (Or.inr ⟨_, rfl⟩)
    · rcases h3 : handshakeCheck c r with e | b <;> (try simp only [h3])
      · exact Or.inr (Or.inr ⟨_, rfl⟩)
      · rcases b with _ | _
        · exact Or.inl rfl
        · simpa using fixedLoop_cases c ch none o1 _

/-- Every error outcome of the name-repaired session carries no text. -/
theorem sessionFixed_uniform (c : Codecs) (q : List Nat)
    (ch o : List (List Nat))
    (h : (sessionFixed c q ch o).1.state = RState.error) :
    (sessionFixed c q ch o).1.text = none := by
  have h1 := sessionFixedE_cases c q ch o
  unfold sessionFixed at h ⊢
  rcases hE : sessionFixedE c q ch o with ⟨r, s⟩
  rw [hE] at h h1
  rcases h1 with h2 | ⟨t, h2⟩ | ⟨e, h2⟩ <;> simp only at h2 <;> subst h2 <;>
    simp_all [errResult]

/-- The initial full-request frame is not a terminal audio frame: the two
differ in the message-type byte (0x10 against 0x22). -/
theorem fullRequestFrame_not_term (c : Codecs) (req tail : List Nat) :
    fullRequestFrame c req ≠
      generateHeaderIntended CLIENT_AUDIO_ONLY_REQUEST NEG_SEQUENCE ++ tail := by
  intro h
  rw [show generateHeaderIntended CLIENT_AUDIO_ONLY_REQUEST NEG_SEQUENCE =
      [17, 34, 17, 0] from rfl,
    show fullRequestFrame c req =
      [17, 16, 17, 0] ++ beBytes4 (c.gzipCompress req).length ++
        c.gzipCompress req from rfl] at h
  simp at h

/-- On an empty chunk list the name-repaired session either fails before
sending anything or sends exactly the initial full request and then
raises or bails out; it never reaches a terminal audio frame. -/
theorem sessionFixedE_nil (c : Codecs) (req : List Nat)
    (oracle : List (List Nat)) :
    sessionFixedE c req [] oracle = (.error .overflowError, []) ∨
    ∃ x : Except PyErr SpeechResult,
      sessionFixedE c req [] oracle = (x, [fullRequestFrame c req]) ∧
      (x = .ok errResult ∨ ∃ e, x = .error e) := by
  unfold sessionFixedE
  dsimp only
  by_cases hn : (c.gzipCompress req).length < 4294967296
  · rw [toBytesBE4_ok _ hn]
    right
    rcases hr : recvO oracle with e | ⟨r, o1⟩ <;> simp only [hr]
    · exact ⟨_, rfl, Or.inr ⟨e, rfl⟩⟩
    · rcases hh : handshakeCheck c r with e | b <;> (try simp only [hh])
      · exact ⟨_, rfl, Or.inr ⟨e, rfl⟩⟩
      · rcases b with _ | _
        · exact ⟨_, rfl, Or.inl rfl⟩
        · simp only [fixedLoop, afterLoop]
          exact ⟨_, rfl, Or.inr ⟨_, rfl⟩⟩
  · unfold toBytesBE4
    rw [if_neg hn]
    left
    rfl

/-- C1: the claimed round-trip law `decode(encode(header, payload))` cannot
hold on the shipped code: for every valid message-type and flag nibble the
frame encoder `_generate_header` raises NameError (stt.py line 140 reads
the unbound globals `JSON_SERIALIZATION` / `GZIP_COMPRESSION`), so encoding
never produces any bytes to decode. -/
theorem c1_encoder_never_produces_bytes :
    ∀ mt : Nat, mt < 16 → ∀ fl : Nat, fl < 16 →
      generateHeader mt fl = .error .nameError := by decide

theorem c1_encoder_never_produces_bytes_witness :
    2 < 16 ∧ generateHeader CLIENT_AUDIO_ONLY_REQUEST NEG_SEQUENCE =
      .error .nameError :=
  ⟨by decide, c1_encoder_never_produces_bytes 2 (by decide) 2 (by decide)⟩

/-- C2: on the shipped code a one-chunk stream with all-success responses
yields an error result with zero frames sent (the first conjunct), because
the session raises NameError before any send; with the three undefined
names repaired to their evident referents, a stream of N = `init.length+1`
chunks with all-success responses sends the initial full request and then
exactly N audio frames, frames 1..N-1 flagged NO_SEQUENCE and frame N
flagged NEG_SEQUENCE, independent of chunk sizes (second conjunct). -/
theorem c2_audio_frame_count_and_flags :
    sessionFaithful testCodecs [] [[1, 2, 3]] [okResp, okResp] = (errResult, []) ∧
    (∀ (c : Codecs) (req : List Nat) (init : List (List Nat))
        (lastc r0 : List Nat) (rs : List (List Nat)),
      goodResponse c r0 = true →
      (∀ r ∈ rs, goodResponse c r = true) →
      init.length ≤ rs.length →
      (c.gzipCompress req).length < 4294967296 →
      (∀ ch ∈ init ++ [lastc], (c.gzipCompress ch).length < 4294967296) →
      (sessionFixed c req (init ++ [lastc]) (r0 :: rs)).2 =
        fullRequestFrame c req ::
          (init.map (audioFrame c NO_SEQUENCE) ++
            [audioFrame c NEG_SEQUENCE lastc])) := by
  refine ⟨rfl, ?_⟩
  intro c req init lastc r0 rs h0 hrs hlen hreq hch
  rw [sessionFixed_snd]
  unfold sessionFixedE
  dsimp only
  rw [toBytesBE4_ok _ hreq]
  simp only [recvO]
  rw [handshake_of_good c r0 h0]
  cases init with
  | nil =>
    simp only [List.nil_append, fixedLoop]
    rw [afterLoop_sends c lastc rs _ (hch lastc (by simp))]
    simp [fullRequestFrame]
  | cons i1 init1 =>
    simp only [List.cons_append, fixedLoop, List.append_eq]
    rw [fixedLoop_sends_good c init1 lastc i1 rs _ hrs (by simpa using hlen)
      (fun x hx => hch x (by simpa using hx))]
    simp [fullRequestFrame]

theorem c2_audio_frame_count_and_flags_witness :
    (sessionFixed testCodecs [] [[1], [2], [3]]
        [okResp, okResp, okResp, okResp]).2 =
      fullRequestFrame testCodecs [] ::
        ([[1], [2]].map (audioFrame testCodecs NO_SEQUENCE) ++
          [audioFrame testCodecs NEG_SEQUENCE [3]]) :=
  c2_audio_frame_count_and_flags.2 testCodecs [] [[1], [2]] [3] okResp
    [okResp, okResp, okResp] (by decide) (by decide) (by decide) (by decide)
    (by decide)

/-- C3: the shipped `_generate_header` raises NameError instead of emitting
any header (first conjunct); with line 140 read as intended, a request
frame is byte 0 = 0x11 (protocolVersion 1, headerSizeWords 1), byte 1 =
(messageType<<4)|flags, byte 2 = 0x11 (JSON serialization, Gzip
compression), byte 3 = 0 — a header of exactly 4 bytes — followed by the
4-byte big-endian payload length (which decodes back to the length) and
the payload bytes (second conjunct). -/
theorem c3_header_byte_layout :
    generateHeader CLIENT_FULL_REQUEST NO_SEQUENCE = .error .nameError ∧
    (∀ (mt fl : Nat) (payload : List Nat), payload.length < 4294967296 →
      fullRequestIntended mt fl payload =
        .ok ([17, (mt <<< 4) ||| fl, 17, 0] ++
          beBytes4 payload.length ++ payload) ∧
      (beBytes4 payload.length).length = 4 ∧
      beUnsigned (beBytes4 payload.length) = payload.length) := by
  refine ⟨by decide, ?_⟩
  intro mt fl payload h
  refine ⟨?_, rfl, beUnsigned_beBytes4 _ h⟩
  unfold fullRequestIntended
  rw [toBytesBE4_ok _ h]
  rfl

theorem c3_header_byte_layout_witness :
    fullRequestIntended CLIENT_FULL_REQUEST NO_SEQUENCE [5] =
      .ok [17, 16, 17, 0, 0, 0, 0, 1, 5] :=
  (c3_header_byte_layout.2 1 0 [5] (by decide)).1

/-- C4, counterexample: decoding a frame whose message-type nibble is 0
(not one of 9, 11, 15) does not fail with any error — it returns an empty
result — refuting the claim that decoding fails with a protocol error. -/
theorem c4_unknown_type_counterexample :
    parseResponse testCodecs [17, 0, 17, 0] = .ok ⟨none, none, none, none⟩ ∧
    ∀ e, parseResponse testCodecs [17, 0, 17, 0] ≠ .error e := by
  refine ⟨rfl, ?_⟩
  intro e h
  rw [show parseResponse testCodecs [17, 0, 17, 0] =
    .ok ⟨none, none, none, none⟩ from rfl] at h
  exact Except.noConfusion h

/-- C4, amended: for every input whose message-type nibble is not
ServerFullResponse(9), ServerAck(11) or ServerErrorResponse(15), frame
decoding succeeds with an empty result — no seq, no code, no payload — and
does not raise. -/
theorem c4_unknown_type_empty_result (c : Codecs) (b0 b1 b2 b3 : Nat)
    (rest : List Nat)
    (h9 : b1 >>> 4 ≠ SERVER_FULL_RESPONSE)
    (h11 : b1 >>> 4 ≠ SERVER_ACK)
    (h15 : b1 >>> 4 ≠ SERVER_ERROR_RESPONSE) :
    parseResponse c (b0 :: b1 :: b2 :: b3 :: rest) =
      .ok ⟨none, none, none, none⟩ := by
  unfold parseResponse
  dsimp only
  rw [if_neg h9, if_neg h11, if_neg h15]
  rfl

theorem c4_unknown_type_empty_result_witness :
    parseResponse testCodecs [17, 32, 17, 0] = .ok ⟨none, none, none, none⟩ :=
  c4_unknown_type_empty_result testCodecs 17 32 17 0 [] (by decide) (by decide)
    (by decide)

/-- C5: decoding a ServerAck frame whose post-header payload is shorter
than 8 bytes succeeds (not an error) with the big-endian signed sequence
number from payload[0:4] and no payload body; with at least 8 payload
bytes it additionally returns payloadSize from payload[4:8] (unsigned
big-endian) and the deserialized body taken from payload[8:]. -/
theorem c5_server_ack_decode (c : Codecs) (b0 b1 b2 b3 : Nat)
    (rest payload : List Nat) (hmt : b1 >>> 4 = SERVER_ACK)
    (hpay : payload = (b0 :: b1 :: b2 :: b3 :: rest).drop ((b0 &&& 15) * 4)) :
    (payload.length < 8 →
      parseResponse c (b0 :: b1 :: b2 :: b3 :: rest) =
        .ok ⟨some (beSigned (payload.take 4)), none, none, none⟩) ∧
    (8 ≤ payload.length →
      parseResponse c (b0 :: b1 :: b2 :: b3 :: rest) =
        match decodeBody c (b2 >>> 4) (b2 &&& 15) (payload.drop 8) with
        | .ok v => .ok ⟨some (beSigned (payload.take 4)), none, some v,
            some ((beUnsigned ((payload.drop 4).take 4)) : Int)⟩
        | .error e => .error e) := by
  subst hpay
  unfold parseResponse
  dsimp only
  rw [hmt]
  rw [if_neg (by decide : ¬(SERVER_ACK = SERVER_FULL_RESPONSE)), if_pos rfl]
  constructor
  · intro hlt
    rw [if_neg (by omega)]
    rfl
  · intro hge
    rw [if_pos hge]
    unfold attachBody
    dsimp only
    cases hd : decodeBody c (b2 >>> 4) (b2 &&& 15)
        (((b0 :: b1 :: b2 :: b3 :: rest).drop ((b0 &&& 15) * 4)).drop 8) <;>
      rfl

theorem c5_server_ack_decode_witness :
    parseResponse testCodecs [17, 176, 17, 0, 0, 0, 0, 1] =
      .ok ⟨some 1, none, none, none⟩ :=
  (c5_server_ack_decode testCodecs 17 176 17 0 [0, 0, 0, 1] [0, 0, 0, 1]
    (by decide) rfl).1 (by decide)

/-- C6: payload deserialization reverses gzip first, propagating a gzip
failure unchanged whatever the serialization method (first conjunct); on
gzip success it JSON-parses the UTF-8 text when the serialization method
is JSON (propagating parse failures), returns the raw decompressed bytes
for method None, and returns the decoded UTF-8 text for every other
method. -/
theorem c6_deserialize_pipeline (c : Codecs) (ser : Nat) (body : List Nat) :
    (∀ e, c.gunzip body = .error e → decodeBody c ser GZIP body = .error e) ∧
    (∀ b, c.gunzip body = .ok b →
      (ser = JSON →
        decodeBody c ser GZIP body = (c.utf8Decode b).bind c.jsonLoads) ∧
      (ser = NO_SERIALIZATION →
        decodeBody c ser GZIP body = .ok (.pyBytes b)) ∧
      (ser ≠ JSON → ser ≠ NO_SERIALIZATION →
        decodeBody c ser GZIP body = (c.utf8Decode b).map PyObj.pyStr)) := by
  constructor
  · intro e he
    unfold decodeBody
    rw [if_pos rfl]
    rw [he]
    rfl
  · intro b hb
    unfold decodeBody
    rw [if_pos rfl, hb, exbind_ok]
    refine ⟨?_, ?_, ?_⟩
    · intro hser
      subst hser
      rfl
    · intro hser
      subst hser
      rfl
    · intro h1 h2
      rw [if_neg h1, if_neg h2]
      cases hu : c.utf8Decode b <;> simp [hu, Except.map, Except.bind]

theorem c6_deserialize_pipeline_witness :
    decodeBody testCodecs NO_SERIALIZATION GZIP [1, 2] =
      .ok (.pyBytes [1, 2]) :=
  ((c6_deserialize_pipeline testCodecs NO_SERIALIZATION [1, 2]).2 [1, 2]
    rfl).2.1 rfl

/-- C7: the shipped session returns an error result having sent no frame
at all, for every input (first conjunct, the NameError of C2), so no frame
ever follows a bad intermediate response and no partial text is returned;
with the undefined names repaired, if the response to an intermediate
audio frame (after `goods.length` successes) carries a status code other
than 1000, the session returns the error result immediately, having sent
only the initial request and the first `goods.length + 1` non-terminal
audio frames — nothing further (second conjunct). -/
theorem c7_bad_status_stops_stream :
    (∀ (c : Codecs) (req : List Nat) (chunks oracle : List (List Nat)),
      sessionFaithful c req chunks oracle = (errResult, [])) ∧
    (∀ (c : Codecs) (req r0 bad : List Nat)
        (goods rest chunks : List (List Nat)),
      goodResponse c r0 = true →
      (∀ r ∈ goods, goodResponse c r = true) →
      badResponse c bad = true →
      goods.length + 2 ≤ chunks.length →
      (c.gzipCompress req).length < 4294967296 →
      (∀ ch ∈ chunks, (c.gzipCompress ch).length < 4294967296) →
      sessionFixed c req chunks (r0 :: (goods ++ bad :: rest)) =
        (errResult,
          fullRequestFrame c req ::
            (chunks.take (goods.length + 1)).map (audioFrame c NO_SEQUENCE))) := by
  refine ⟨fun _ _ _ _ => rfl, ?_⟩
  intro c req r0 bad goods rest chunks h0 hg hbad hlen hreq hch
  have hE : sessionFixedE c req chunks (r0 :: (goods ++ bad :: rest)) =
      (.ok errResult,
        fullRequestFrame c req ::
          (chunks.take (goods.length + 1)).map (audioFrame c NO_SEQUENCE)) := by
    unfold sessionFixedE
    dsimp only
    rw [toBytesBE4_ok _ hreq]
    simp only [recvO]
    rw [handshake_of_good c r0 h0]
    cases chunks with
    | nil => simp at hlen
    | cons c1 chunks1 =>
      simp only [fixedLoop]
      rw [fixedLoop_sends_bad c goods bad rest chunks1 c1 _ hg hbad
        (by simpa using hlen) hch]
      simp [fullRequestFrame, List.take_succ_cons]
  unfold sessionFixed
  rw [hE]

theorem c7_bad_status_stops_stream_witness :
    sessionFixed testCodecs [] [[1], [2], [3]] [okResp, badResp] =
      (errResult,
        [fullRequestFrame testCodecs [], audioFrame testCodecs NO_SEQUENCE [1]]) :=
  c7_bad_status_stops_stream.2 testCodecs [] okResp badResp [] [] [[1], [2], [3]]
    (by decide) (by simp) (by decide) (by decide) (by decide) (by decide)

/-- C8: a synthesis call whose HTTP response succeeds and whose JSON body
holds a `data` field returns exactly the pair ("mp3", base64-decoded
bytes of that field), with the format string fixed to "mp3". -/
theorem c8_tts_returns_decoded_mp3 (resp : HttpResponse)
    (b64 : PyObj → Except PyErr (List Nat)) (data d : PyObj)
    (audio : List Nat)
    (h1 : resp.raiseForStatus = .ok ())
    (h2 : resp.jsonBody = .ok data)
    (h3 : data.hasKey "data" = .ok true)
    (h4 : data.getItem "data" = .ok d)
    (h5 : b64 d = .ok audio) :
    asyncGetTtsAudio (.ok resp) b64 = (some "mp3", some audio) := by
  unfold asyncGetTtsAudio
  rw [exbind_ok]
  rw [h1, exbind_ok, h2, exbind_ok, h3, exbind_ok]
  rw [if_pos rfl, h4, exbind_ok, h5]
  rfl

theorem c8_tts_returns_decoded_mp3_witness :
    asyncGetTtsAudio
        (.ok ⟨.ok (), .ok (.pyDict [("data", .pyStr "UklGRg==")])⟩)
        (fun _ => .ok [82, 73, 70, 70]) =
      (some "mp3", some [82, 73, 70, 70]) :=
  c8_tts_returns_decoded_mp3 ⟨.ok (), .ok (.pyDict [("data", .pyStr "UklGRg==")])⟩
    (fun _ => .ok [82, 73, 70, 70]) (.pyDict [("data", .pyStr "UklGRg==")])
    (.pyStr "UklGRg==") [82, 73, 70, 70] rfl rfl rfl rfl rfl

/-- C9: every failure inside the synthesis call — transport error, bad
HTTP status, non-JSON body, HTTP success without a `data` field, base64
failure — yields the uniform `(None, None)` outcome with no exception
escaping (first five conjuncts); the shipped recognition session always
returns the error result with no text (sixth conjunct); and in the
name-repaired session every error outcome likewise carries no partial
text (seventh conjunct). -/
theorem c9_uniform_error_outcomes :
    (∀ (e : PyErr) (b64 : PyObj → Except PyErr (List Nat)),
      asyncGetTtsAudio (.error e) b64 = (none, none)) ∧
    (∀ (resp : HttpResponse) (b64 : PyObj → Except PyErr (List Nat)) (e : PyErr),
      resp.raiseForStatus = .error e →
      asyncGetTtsAudio (.ok resp) b64 = (none, none)) ∧
    (∀ (resp : HttpResponse) (b64 : PyObj → Except PyErr (List Nat)) (e : PyErr),
      resp.raiseForStatus = .ok () → resp.jsonBody = .error e →
      asyncGetTtsAudio (.ok resp) b64 = (none, none)) ∧
    (∀ (resp : HttpResponse) (b64 : PyObj → Except PyErr (List Nat))
        (data : PyObj),
      resp.raiseForStatus = .ok () → resp.jsonBody = .ok data →
      data.hasKey "data" = .ok false →
      asyncGetTtsAudio (.ok resp) b64 = (none, none)) ∧
    (∀ (resp : HttpResponse) (b64 : PyObj → Except PyErr (List Nat))
        (data d : PyObj) (e : PyErr),
      resp.raiseForStatus = .ok () → resp.jsonBody = .ok data →
      data.hasKey "data" = .ok true → data.getItem "data" = .ok d →
      b64 d = .error e → asyncGetTtsAudio (.ok resp) b64 = (none, none)) ∧
    (∀ (c : Codecs) (req : List Nat) (chunks oracle : List (List Nat)),
      (sessionFaithful c req chunks oracle).1.text = none ∧
      (sessionFaithful c req chunks oracle).1.state = RState.error) ∧
    (∀ (c : Codecs) (req : List Nat) (chunks oracle : List (List Nat)),
      (sessionFixed c req chunks oracle).1.state = RState.error →
      (sessionFixed c req chunks oracle).1.text = none) := by
  refine ⟨fun e b64 => rfl, ?_, ?_, ?_, ?_, fun c req ch o => ⟨rfl, rfl⟩,
    fun c req ch o h => sessionFixed_uniform c req ch o h⟩
  · intro resp b64 e h
    unfold asyncGetTtsAudio
    rw [exbind_ok, h]
    rfl
  · intro resp b64 e h1 h2
    unfold asyncGetTtsAudio
    rw [exbind_ok, h1, exbind_ok, h2]
    rfl
  · intro resp b64 data h1 h2 h3
    unfold asyncGetTtsAudio
    rw [exbind_ok, h1, exbind_ok, h2, exbind_ok, h3, exbind_ok]
    rfl
  · intro resp b64 data d e h1 h2 h3 h4 h5
    unfold asyncGetTtsAudio
    rw [exbind_ok, h1, exbind_ok, h2, exbind_ok, h3, exbind_ok]
    rw [if_pos rfl, h4, exbind_ok, h5]
    rfl

theorem c9_uniform_error_outcomes_witness :
    asyncGetTtsAudio (.ok ⟨.ok (), .ok (.pyDict [])⟩) (fun _ => .ok []) =
      (none, none) :=
  c9_uniform_error_outcomes.2.2.2.1 ⟨.ok (), .ok (.pyDict [])⟩
    (fun _ => .ok []) (.pyDict []) rfl rfl rfl

/-- C10: a zero-chunk stream yields an error result carrying no text, and
no terminal audio frame is ever sent: the shipped session fails before
sending anything (first conjunct), and the name-repaired session sends at
most the initial full request — the terminal flush crashes on
`gzip.compress(None)` — so no sent frame is a NEG_SEQUENCE audio frame
(second conjunct). -/
theorem c10_empty_stream_errors :
    (∀ (c : Codecs) (req : List Nat) (oracle : List (List Nat)),
      sessionFaithful c req [] oracle = (errResult, [])) ∧
    (∀ (c : Codecs) (req : List Nat) (oracle : List (List Nat)),
      (sessionFixed c req [] oracle).1 = errResult ∧
      ((sessionFixed c req [] oracle).2 = [] ∨
        (sessionFixed c req [] oracle).2 = [fullRequestFrame c req]) ∧
      (∀ f ∈ (sessionFixed c req [] oracle).2, ∀ tail : List Nat,
        f ≠ generateHeaderIntended CLIENT_AUDIO_ONLY_REQUEST NEG_SEQUENCE ++
          tail)) := by
  refine ⟨fun _ _ _ => rfl, ?_⟩
  intro c req oracle
  rcases sessionFixedE_nil c req oracle with h | ⟨x, hx, hcase⟩
  · unfold sessionFixed
    rw [h]
    exact ⟨rfl, Or.inl rfl, by simp⟩
  · unfold sessionFixed
    rw [hx]
    rcases hcase with h1 | ⟨e, h1⟩ <;> subst h1
    · refine ⟨rfl, Or.inr rfl, ?_⟩
      intro f hf tail
      rw [show f = fullRequestFrame c req by simpa using hf]
      exact fullRequestFrame_not_term c req tail
    · refine ⟨rfl, Or.inr rfl, ?_⟩
      intro f hf tail
      rw [show f = fullRequestFrame c req by simpa using hf]
      exact fullRequestFrame_not_term c req tail

theorem c10_empty_stream_errors_witness :
    (sessionFixed testCodecs [] [] []).1 = errResult :=
  (c10_empty_stream_errors.2 testCodecs [] []).1
